import Mathlib

/-!
# Button drawing of JWM (`src/button.c`)

A shallow embedding of `DrawButton` and `ResetButton`.  The X11 requests and the
calls to the icon and font modules that `DrawButton` issues are recorded, in
program order, as a list of `XCall` values.  C `int` values are unbounded
integers here: `/` of C is `Int.tdiv` (truncation toward zero) and traps on a
zero divisor, `<< 16` is multiplication by `65536` and `>> 16` is the arithmetic
shift `>>> 16`.  The layout of lines 126-171 is given a second time on 32-bit
`int` (`iconSize32`, `textSize32`, `contentOffset32`, `iconYOffset32`,
`layout32`), with every arithmetic result wrapped by `wrap32`.
-/

namespace Jwm

/-! ## Data model -/

/-- Modelled from the spec: `button.h` is absent.  The seven button kinds that
`button.c` names, and `other raw` for any value of the underlying integer type
that is none of the seven constants. -/
inductive ButtonType
  | BUTTON_LABEL
  | BUTTON_MENU
  | BUTTON_MENU_ACTIVE
  | BUTTON_TRAY
  | BUTTON_TRAY_ACTIVE
  | BUTTON_TASK
  | BUTTON_TASK_ACTIVE
  | other (raw : Nat)
  deriving DecidableEq, Repr

/-- Modelled from the spec: `button.h` is absent.  Alignment of the content of a
button. -/
inductive AlignmentType
  | ALIGN_LEFT
  | ALIGN_CENTER
  deriving DecidableEq, Repr

/-- Modelled from the spec: `color.h` is absent.  The colour ids that `button.c`
reads from the colour table. -/
inductive ColorType
  | COLOR_MENU_FG
  | COLOR_MENU_BG
  | COLOR_MENU_UP
  | COLOR_MENU_DOWN
  | COLOR_MENU_ACTIVE_FG
  | COLOR_MENU_ACTIVE_BG1
  | COLOR_MENU_ACTIVE_BG2
  | COLOR_MENU_ACTIVE_UP
  | COLOR_MENU_ACTIVE_DOWN
  | COLOR_TRAY_FG
  | COLOR_TRAY_BG1
  | COLOR_TRAY_BG2
  | COLOR_TRAY_UP
  | COLOR_TRAY_DOWN
  | COLOR_TRAY_ACTIVE_FG
  | COLOR_TRAY_ACTIVE_BG1
  | COLOR_TRAY_ACTIVE_BG2
  | COLOR_TRAY_ACTIVE_UP
  | COLOR_TRAY_ACTIVE_DOWN
  deriving DecidableEq, Repr

/-- Modelled from the spec: `settings.h` is absent.  The decoration style of the
theme. -/
inductive DecorationsType
  | DECO_MOTIF
  | DECO_FLAT
  deriving DecidableEq, Repr

/-- Modelled from the spec: `font.h` is absent.  The tray font, and `other raw`
for every other font id. -/
inductive FontType
  | FONT_TRAY
  | other (raw : Nat)
  deriving DecidableEq, Repr

/-- A pixel value of the colour table.  `DrawButton` copies the `unsigned long`
table entries into `long` locals and only compares them for equality and hands
them back to X, so the conversion is not visible. -/
abbrev Pixel := Nat

/-- An X drawable id. -/
abbrev Drawable := Nat

/-- An X graphics context handle. -/
abbrev GC := Nat

/-- A reference to a `VisualData` record, passed through to the collaborators. -/
abbrev VisualData := Nat

/-- Modelled from the spec: `image.h` is absent.  The fields of an image that
`button.c` reads. -/
structure ImageNode where
  width : Int
  height : Int
  deriving DecidableEq, Repr

/-- Modelled from the spec: `icon.h` is absent.  The field of an icon that
`button.c` reads. -/
structure IconNode where
  images : ImageNode
  deriving DecidableEq, Repr

/-- A non-null `IconNode *`: the address of the global `emptyIcon`, or a loaded
icon. -/
inductive IconRef
  | emptyIcon
  | loaded (icon : IconNode)
  deriving DecidableEq, Repr

/-- Modelled from the spec: `button.h` is absent.  The fields of `ButtonNode`
that `button.c` reads and writes; a null `icon` or `text` is `none`, and the two
`char` flags are booleans. -/
structure ButtonNode where
  type : ButtonType
  drawable : Drawable
  visual : VisualData
  font : FontType
  alignment : AlignmentType
  x : Int
  y : Int
  width : Int
  height : Int
  icon : Option IconRef
  text : Option String
  fill : Bool
  border : Bool
  deriving DecidableEq, Repr

/-- Modelled from the spec: `settings.h` is absent.  The two decoration settings
that `button.c` reads. -/
structure Settings where
  menuDecorations : DecorationsType
  trayDecorations : DecorationsType
  deriving DecidableEq, Repr

/-- The process-wide state and the collaborators that `DrawButton` reads: the
colour table `colors[]`, `settings`, the font metrics, and the handle that
`JXCreateGC` returns for a drawable. -/
structure Env where
  colors : ColorType → Pixel
  settings : Settings
  GetStringWidth : FontType → String → Int
  GetStringHeight : FontType → Int
  JXCreateGC : Drawable → GC

/-- One request that `DrawButton` issues, with its arguments (the constant
`display` argument is left out). -/
inductive XCall
  | JXCreateGC (d : Drawable) (gc : GC)
  | JXSetForeground (gc : GC) (pixel : Pixel)
  | JXFillRectangle (d : Drawable) (gc : GC) (x y width height : Int)
  | DrawHorizontalGradient (d : Drawable) (gc : GC) (fromColor toColor : Pixel)
      (x y width height : Int)
  | JXDrawLine (d : Drawable) (gc : GC) (x1 y1 x2 y2 : Int)
  | JXDrawRectangle (d : Drawable) (gc : GC) (x y width height : Int)
  | PutIcon (visual : VisualData) (icon : IconRef) (d : Drawable) (fg : Pixel)
      (x y width height : Int)
  | RenderString (visual : VisualData) (d : Drawable) (font : FontType) (fg : ColorType)
      (x y width : Int) (text : String)
  | JXFreeGC (gc : GC)
  deriving DecidableEq, Repr

/-! ## Colour selection (`button.c` lines 46-91) -/

/-- The locals `fg`, `bg1`, `bg2`, `up`, `down` and `decorations` of `DrawButton`
after the `switch`. -/
structure Style where
  fg : ColorType
  bg1 : Pixel
  bg2 : Pixel
  up : Pixel
  down : Pixel
  decorations : DecorationsType
  deriving DecidableEq, Repr

open ButtonType ColorType in
/-- The `switch(bp->type)` of `DrawButton`. -/
def buttonStyle (env : Env) : ButtonType → Style
  | BUTTON_LABEL =>
    { fg := COLOR_MENU_FG
      bg1 := env.colors COLOR_MENU_BG
      bg2 := env.colors COLOR_MENU_BG
      up := env.colors COLOR_MENU_UP
      down := env.colors COLOR_MENU_DOWN
      decorations := env.settings.menuDecorations }
  | BUTTON_MENU_ACTIVE =>
    { fg := COLOR_MENU_ACTIVE_FG
      bg1 := env.colors COLOR_MENU_ACTIVE_BG1
      bg2 := env.colors COLOR_MENU_ACTIVE_BG2
      down := env.colors COLOR_MENU_ACTIVE_UP
      up := env.colors COLOR_MENU_ACTIVE_DOWN
      decorations := env.settings.menuDecorations }
  | BUTTON_TRAY | BUTTON_TASK =>
    { fg := COLOR_TRAY_FG
      bg1 := env.colors COLOR_TRAY_BG1
      bg2 := env.colors COLOR_TRAY_BG2
      up := env.colors COLOR_TRAY_UP
      down := env.colors COLOR_TRAY_DOWN
      decorations := env.settings.trayDecorations }
  | BUTTON_TRAY_ACTIVE | BUTTON_TASK_ACTIVE =>
    { fg := COLOR_TRAY_ACTIVE_FG
      bg1 := env.colors COLOR_TRAY_ACTIVE_BG1
      bg2 := env.colors COLOR_TRAY_ACTIVE_BG2
      down := env.colors COLOR_TRAY_ACTIVE_UP
      up := env.colors COLOR_TRAY_ACTIVE_DOWN
      decorations := env.settings.trayDecorations }
  | _ =>
    { fg := COLOR_MENU_FG
      bg1 := env.colors COLOR_MENU_BG
      bg2 := env.colors COLOR_MENU_BG
      up := env.colors COLOR_MENU_UP
      down := env.colors COLOR_MENU_DOWN
      decorations := env.settings.menuDecorations }

/-! ## Integer operations of C -/

/-- Modelled from the spec: `misc.h` is absent.  The macro `Min`, the smaller of
two values. -/
def Min (a b : Int) : Int :=
  if a > b then b else a

/-- The C expression `a << 16`. -/
def shl16 (a : Int) : Int :=
  a * 65536

/-- The C expression `a >> 16`, an arithmetic shift. -/
def shr16 (a : Int) : Int :=
  a >>> (16 : Nat)

/-- The C expression `a / b` on `int`: truncation toward zero, and no value when
the divisor is zero. -/
def cdiv (a b : Int) : Option Int :=
  if b = 0 then none else some (Int.tdiv a b)

/-! ## Layout (`button.c` lines 126-167) -/

/-- The fixed-point ratio `(bp->icon->images->width << 16) / bp->icon->images->height`
of line 134, in exact integer arithmetic (`iconRatio32` is the ratio on 32-bit
`int`; the two differ once the intrinsic width reaches 32768). -/
def iconRatio (icon : IconNode) : Option Int :=
  cdiv (shl16 icon.images.width) icon.images.height

/-- The size of the icon to display, lines 126-143, in exact integer
arithmetic: `(iconWidth, iconHeight)`, or `none` when one of the two divisions
has a zero divisor (`iconSize32` is the sizing on 32-bit `int`; the two differ
once an intermediate value leaves the range of `int`). -/
def iconSize (width height : Int) : Option IconRef → Option (Int × Int)
  | none => some (0, 0)
  | some IconRef.emptyIcon =>
    let iconWidth := Min (width - 4) (height - 4)
    let iconHeight := iconWidth
    some (iconWidth, iconHeight)
  | some (IconRef.loaded icon) =>
    match iconRatio icon with
    | none => none
    | some ratio =>
      let iconHeight := height - 4
      let iconWidth := shr16 (iconHeight * ratio)
      if iconWidth > width - 4 then
        let iconWidth := width - 4
        match cdiv (shl16 iconWidth) ratio with
        | none => none
        | some iconHeight => some (iconWidth, iconHeight)
      else
        some (iconWidth, iconHeight)

/-- The room left for text, lines 145-157: `(textWidth, textHeight)`. -/
def textSize (env : Env) (font : FontType) (width iconWidth : Int) :
    Option String → Int × Int
  | none => (0, 0)
  | some text =>
    let textWidth := env.GetStringWidth font text
    let textHeight := env.GetStringHeight font
    let textWidth :=
      if iconWidth > 0 ∧ textWidth + iconWidth + 7 > width then
        width - iconWidth - 7
      else if iconWidth = 0 ∧ textWidth + 5 > width then
        width - 5
      else
        textWidth
    let textWidth := if textWidth < 0 then 0 else textWidth
    (textWidth, textHeight)

/-- The offset of the content in the button, lines 159-167. -/
def contentOffset (alignment : AlignmentType) (width iconWidth textWidth : Int) : Int :=
  if alignment = AlignmentType.ALIGN_CENTER then
    let xoffset := Int.tdiv (width - iconWidth - textWidth + 1) 2
    if xoffset < 0 then 0 else xoffset
  else
    2

/-- The locals of `DrawButton` when line 168 is reached. -/
structure Layout where
  iconWidth : Int
  iconHeight : Int
  textWidth : Int
  textHeight : Int
  xoffset : Int
  deriving DecidableEq, Repr

/-- Lines 126-167 of `DrawButton`; `none` when the icon sizing divides by zero. -/
def layout (env : Env) (bp : ButtonNode) : Option Layout :=
  match iconSize bp.width bp.height bp.icon with
  | none => none
  | some (iconWidth, iconHeight) =>
    let (textWidth, textHeight) := textSize env bp.font bp.width iconWidth bp.text
    let xoffset := contentOffset bp.alignment bp.width iconWidth textWidth
    some { iconWidth := iconWidth, iconHeight := iconHeight, textWidth := textWidth,
           textHeight := textHeight, xoffset := xoffset }

/-! ## The requests of `DrawButton` -/

/-- Draw the background, lines 93-107. -/
def drawBackground (bp : ButtonNode) (gc : GC) (bg1 bg2 : Pixel) : List XCall :=
  if bp.fill then
    XCall.JXSetForeground gc bg1 ::
      (if bg1 = bg2 then
        [XCall.JXFillRectangle bp.drawable gc bp.x bp.y bp.width bp.height]
      else
        [XCall.DrawHorizontalGradient bp.drawable gc bg1 bg2 bp.x bp.y bp.width bp.height])
  else
    []

/-- Draw the border, lines 109-124. -/
def drawBorder (bp : ButtonNode) (gc : GC) (up down : Pixel)
    (decorations : DecorationsType) : List XCall :=
  let x := bp.x
  let y := bp.y
  let width := bp.width
  let height := bp.height
  if bp.border then
    if decorations = DecorationsType.DECO_MOTIF then
      [ XCall.JXSetForeground gc up,
        XCall.JXDrawLine bp.drawable gc x y (x + width - 1) y,
        XCall.JXDrawLine bp.drawable gc x y x (y + height - 1),
        XCall.JXSetForeground gc down,
        XCall.JXDrawLine bp.drawable gc x (y + height - 1) (x + width - 1) (y + height - 1),
        XCall.JXDrawLine bp.drawable gc (x + width - 1) y (x + width - 1) (y + height - 1) ]
    else
      [ XCall.JXSetForeground gc down,
        XCall.JXDrawRectangle bp.drawable gc x y (width - 1) (height - 1) ]
  else
    []

/-- Display the icon, lines 169-176: the request, and the advanced `xoffset`. -/
def drawIcon (env : Env) (bp : ButtonNode) (fg : ColorType) (l : Layout) :
    List XCall × Int :=
  match bp.icon with
  | some icon =>
    let yoffset := Int.tdiv (bp.height - l.iconHeight + 1) 2
    ([XCall.PutIcon bp.visual icon bp.drawable (env.colors fg)
        (bp.x + l.xoffset) (bp.y + yoffset) l.iconWidth l.iconHeight],
      l.xoffset + (l.iconWidth + 2))
  | none => ([], l.xoffset)

/-- Display the label, lines 178-184, at the `xoffset` left by `drawIcon`. -/
def drawLabel (bp : ButtonNode) (fg : ColorType) (l : Layout) (xoffset : Int) :
    List XCall :=
  if l.textWidth > 0 then
    let yoffset := Int.tdiv (bp.height - l.textHeight + 1) 2
    match bp.text with
    | some text =>
      [XCall.RenderString bp.visual bp.drawable bp.font fg
        (bp.x + xoffset) (bp.y + yoffset) l.textWidth text]
    | none =>
      []
  else
    []

/-- How a run of `DrawButton` ends. -/
inductive Status
  | returned
  | divisionByZero
  deriving DecidableEq, Repr

/-- A run of `DrawButton`: the requests issued, in order, and how the run ends. -/
structure Run where
  calls : List XCall
  status : Status
  deriving DecidableEq, Repr

/-- Draw a button.  A division by zero in the icon sizing ends the run after the
requests of lines 44-124. -/
def DrawButton (env : Env) (bp : ButtonNode) : Run :=
  let gc := env.JXCreateGC bp.drawable
  let s := buttonStyle env bp.type
  let head :=
    XCall.JXCreateGC bp.drawable gc ::
      (drawBackground bp gc s.bg1 s.bg2 ++ drawBorder bp gc s.up s.down s.decorations)
  match layout env bp with
  | none => { calls := head, status := Status.divisionByZero }
  | some l =>
    let (iconCalls, xoffset) := drawIcon env bp s.fg l
    { calls := head ++ iconCalls ++ drawLabel bp s.fg l xoffset ++ [XCall.JXFreeGC gc]
      status := Status.returned }

/-! ## The foreground of a graphics context -/

/-- The foreground of each graphics context after a request: `JXSetForeground`
sets it, and `DrawHorizontalGradient` leaves the foreground of its context
unspecified (`none`), as does `JXCreateGC` for the new context. -/
def gcAfter (fg : GC → Option Pixel) : XCall → GC → Option Pixel
  | XCall.JXCreateGC _ gc => Function.update fg gc none
  | XCall.JXSetForeground gc pixel => Function.update fg gc (some pixel)
  | XCall.DrawHorizontalGradient _ gc _ _ _ _ _ _ => Function.update fg gc none
  | _ => fg

/-- The graphics context a drawing request uses, if it uses one. -/
def XCall.context : XCall → Option GC
  | XCall.JXFillRectangle _ gc _ _ _ _ => some gc
  | XCall.DrawHorizontalGradient _ gc _ _ _ _ _ _ => some gc
  | XCall.JXDrawLine _ gc _ _ _ _ => some gc
  | XCall.JXDrawRectangle _ gc _ _ _ _ => some gc
  | _ => none

/-- Each request of a run together with the foreground that its graphics context
holds when the request is issued (`none` when it uses no context or the
foreground is unspecified). -/
def inked (fg : GC → Option Pixel) : List XCall → List (Option Pixel × XCall)
  | [] => []
  | c :: cs => ((c.context).bind fg, c) :: inked (gcAfter fg c) cs

/-- A solid rectangle fill. -/
def XCall.isFillRectangle : XCall → Bool
  | XCall.JXFillRectangle _ _ _ _ _ _ => true
  | _ => false

/-- A gradient fill. -/
def XCall.isGradient : XCall → Bool
  | XCall.DrawHorizontalGradient _ _ _ _ _ _ _ _ => true
  | _ => false

/-- A line. -/
def XCall.isLine : XCall → Bool
  | XCall.JXDrawLine _ _ _ _ _ _ => true
  | _ => false

/-- A rectangle outline. -/
def XCall.isOutline : XCall → Bool
  | XCall.JXDrawRectangle _ _ _ _ _ _ => true
  | _ => false

/-! ## The style table of the specification -/

/-- The row "Label, Menu" of the style table. -/
def menuRow (env : Env) : Style :=
  { fg := ColorType.COLOR_MENU_FG
    bg1 := env.colors ColorType.COLOR_MENU_BG
    bg2 := env.colors ColorType.COLOR_MENU_BG
    up := env.colors ColorType.COLOR_MENU_UP
    down := env.colors ColorType.COLOR_MENU_DOWN
    decorations := env.settings.menuDecorations }

/-- The row "MenuActive" of the style table, bevel colours swapped. -/
def menuActiveRow (env : Env) : Style :=
  { fg := ColorType.COLOR_MENU_ACTIVE_FG
    bg1 := env.colors ColorType.COLOR_MENU_ACTIVE_BG1
    bg2 := env.colors ColorType.COLOR_MENU_ACTIVE_BG2
    up := env.colors ColorType.COLOR_MENU_ACTIVE_DOWN
    down := env.colors ColorType.COLOR_MENU_ACTIVE_UP
    decorations := env.settings.menuDecorations }

/-- The row "Tray, Task" of the style table. -/
def trayRow (env : Env) : Style :=
  { fg := ColorType.COLOR_TRAY_FG
    bg1 := env.colors ColorType.COLOR_TRAY_BG1
    bg2 := env.colors ColorType.COLOR_TRAY_BG2
    up := env.colors ColorType.COLOR_TRAY_UP
    down := env.colors ColorType.COLOR_TRAY_DOWN
    decorations := env.settings.trayDecorations }

/-- The row "TrayActive, TaskActive" of the style table, bevel colours swapped. -/
def trayActiveRow (env : Env) : Style :=
  { fg := ColorType.COLOR_TRAY_ACTIVE_FG
    bg1 := env.colors ColorType.COLOR_TRAY_ACTIVE_BG1
    bg2 := env.colors ColorType.COLOR_TRAY_ACTIVE_BG2
    up := env.colors ColorType.COLOR_TRAY_ACTIVE_DOWN
    down := env.colors ColorType.COLOR_TRAY_ACTIVE_UP
    decorations := env.settings.trayDecorations }

/-! ## `ResetButton` (`button.c` lines 190-210) -/

/-- Reset a button node with default values: the thirteen assignments of
`ResetButton`, in source order. -/
def ResetButton (bp : ButtonNode) (d : Drawable) (visual : VisualData) : ButtonNode :=
  let bp := { bp with type := ButtonType.BUTTON_MENU }
  let bp := { bp with visual := visual }
  let bp := { bp with drawable := d }
  let bp := { bp with font := FontType.FONT_TRAY }
  let bp := { bp with alignment := AlignmentType.ALIGN_LEFT }
  let bp := { bp with x := 0 }
  let bp := { bp with y := 0 }
  let bp := { bp with width := 1 }
  let bp := { bp with height := 1 }
  let bp := { bp with icon := none }
  let bp := { bp with text := none }
  let bp := { bp with fill := true }
  let bp := { bp with border := false }
  bp

/-- The button that the specification documents as the result of a reset on
drawable `d` with visual `visual`. -/
def defaultButton (d : Drawable) (visual : VisualData) : ButtonNode :=
  { type := ButtonType.BUTTON_MENU
    drawable := d
    visual := visual
    font := FontType.FONT_TRAY
    alignment := AlignmentType.ALIGN_LEFT
    x := 0
    y := 0
    width := 1
    height := 1
    icon := none
    text := none
    fill := true
    border := false }

/-! ## Reading a run -/

/-- The background fills of a run (solid or gradient), each with the foreground
of its graphics context, starting from contexts of unspecified foreground. -/
def fillsOf (calls : List XCall) : List (Option Pixel × XCall) :=
  (inked (fun _ => none) calls).filter (fun q => q.2.isFillRectangle || q.2.isGradient)

/-- The lines and rectangle outlines of a run, each with the foreground of its
graphics context, starting from contexts of unspecified foreground. -/
def strokesOf (calls : List XCall) : List (Option Pixel × XCall) :=
  (inked (fun _ => none) calls).filter (fun q => q.2.isLine || q.2.isOutline)

/-- The pixels of a horizontal or vertical line request, end points included. -/
def XCall.covers : XCall → Int → Int → Prop
  | XCall.JXDrawLine _ _ x1 y1 x2 y2, px, py =>
    (y1 = y2 ∧ py = y1 ∧ ((x1 ≤ px ∧ px ≤ x2) ∨ (x2 ≤ px ∧ px ≤ x1))) ∨
    (x1 = x2 ∧ px = x1 ∧ ((y1 ≤ py ∧ py ≤ y2) ∨ (y2 ≤ py ∧ py ≤ y1)))
  | _, _, _ => False

/-- The boundary pixels of the `width` x `height` rectangle at `(x, y)`. -/
def onBoundary (x y width height px py : Int) : Prop :=
  x ≤ px ∧ px ≤ x + width - 1 ∧ y ≤ py ∧ py ≤ y + height - 1 ∧
    (px = x ∨ px = x + width - 1 ∨ py = y ∨ py = y + height - 1)

/-- A change of foreground. -/
def XCall.isSetForeground : XCall → Bool
  | XCall.JXSetForeground _ _ => true
  | _ => false

/-- An icon draw. -/
def XCall.isPutIcon : XCall → Bool
  | XCall.PutIcon _ _ _ _ _ _ _ _ => true
  | _ => false

/-- A text draw. -/
def XCall.isRenderString : XCall → Bool
  | XCall.RenderString _ _ _ _ _ _ _ _ => true
  | _ => false

/-- The creation of a graphics context. -/
def XCall.isCreateGC : XCall → Bool
  | XCall.JXCreateGC _ _ => true
  | _ => false

/-- The release of a graphics context. -/
def XCall.isFreeGC : XCall → Bool
  | XCall.JXFreeGC _ => true
  | _ => false

/-- The fit-within-box reference of the specification for an icon of intrinsic
size `iw` x `ih` in a `width` x `height` button: the full height `height - 4`
when the width in proportion fits in `width - 4`, else the full width
`width - 4` and the height in proportion (quotients rounded down). -/
def fitWithinBox (width height iw ih : Int) : Int × Int :=
  if (height - 4) * iw / ih ≤ width - 4 then
    ((height - 4) * iw / ih, height - 4)
  else
    (width - 4, (width - 4) * ih / iw)

/-! ## The icon sizing on 32-bit `int` -/

/-- The value that a 32-bit signed `int` holds for the exact result `a`: two's
complement wrap-around. -/
def wrap32 (a : Int) : Int :=
  (a + 2147483648) % 4294967296 - 2147483648

/-- The C expression `a / b` on 32-bit `int`. -/
def cdiv32 (a b : Int) : Option Int :=
  if b = 0 then none else some (wrap32 (Int.tdiv a b))

/-- The ratio of line 134 on 32-bit `int`. -/
def iconRatio32 (icon : IconNode) : Option Int :=
  cdiv32 (wrap32 (shl16 icon.images.width)) icon.images.height

/-- The icon sizing of lines 126-143 with every arithmetic result wrapped to a
32-bit `int`. -/
def iconSize32 (width height : Int) : Option IconRef → Option (Int × Int)
  | none => some (0, 0)
  | some IconRef.emptyIcon =>
    let iconWidth := Min (wrap32 (width - 4)) (wrap32 (height - 4))
    let iconHeight := iconWidth
    some (iconWidth, iconHeight)
  | some (IconRef.loaded icon) =>
    match iconRatio32 icon with
    | none => none
    | some ratio =>
      let iconHeight := wrap32 (height - 4)
      let iconWidth := shr16 (wrap32 (iconHeight * ratio))
      if iconWidth > wrap32 (width - 4) then
        let iconWidth := wrap32 (width - 4)
        match cdiv32 (wrap32 (shl16 iconWidth)) ratio with
        | none => none
        | some iconHeight => some (iconWidth, iconHeight)
      else
        some (iconWidth, iconHeight)

/-- A colour table that gives every colour id its own pixel value. -/
def samplePixel (c : ColorType) : Pixel :=
  c.toCtorIdx

/-- An environment with the colour table `samplePixel`, Motif menus, flat trays,
a font that reports the natural width `n` and the height `12` for every text,
and graphics context `7` for every drawable. -/
def sampleEnv (n : Int) : Env :=
  { colors := samplePixel
    settings := { menuDecorations := DecorationsType.DECO_MOTIF
                  trayDecorations := DecorationsType.DECO_FLAT }
    GetStringWidth := fun _ _ => n
    GetStringHeight := fun _ => 12
    JXCreateGC := fun _ => 7 }

/-- A menu button at (5, 6) of the given size, icon, text and alignment, with
fill and border set. -/
def sampleButton (width height : Int) (icon : Option IconRef) (text : Option String)
    (alignment : AlignmentType) : ButtonNode :=
  { type := ButtonType.BUTTON_MENU
    drawable := 1
    visual := 2
    font := FontType.FONT_TRAY
    alignment := alignment
    x := 5
    y := 6
    width := width
    height := height
    icon := icon
    text := text
    fill := true
    border := true }

/-- A loaded icon whose image is `width` x `height`. -/
def sampleIcon (width height : Int) : IconRef :=
  IconRef.loaded { images := { width := width, height := height } }

theorem shr16_eq_ediv (a : Int) : shr16 a = a / 65536 := by
  unfold shr16
  rw [Int.shiftRight_eq_div_pow]
  norm_num

theorem cdiv_of_ne_zero (a : Int) {b : Int} (hb : b ≠ 0) : cdiv a b = some (Int.tdiv a b) := by
  simp [cdiv, hb]

/-- The ratio of a loaded icon with positive intrinsic size is a non-negative
value. -/
theorem iconRatio_of_pos (icon : IconNode) (hw : 1 ≤ icon.images.width)
    (hh : 1 ≤ icon.images.height) :
    iconRatio icon = some (icon.images.width * 65536 / icon.images.height) ∧
      0 ≤ icon.images.width * 65536 / icon.images.height := by
  have h0 : (0 : Int) ≤ icon.images.width * 65536 := by omega
  have h1 : (0 : Int) ≤ icon.images.height := by omega
  refine ⟨?_, Int.ediv_nonneg h0 h1⟩
  unfold iconRatio shl16
  rw [cdiv_of_ne_zero _ (by omega), Int.tdiv_eq_ediv h0 h1]

/-- The icon sizing completes when there is no icon, for the empty icon, and
for a loaded icon of positive intrinsic size on a button at least 4 wide or
with a ratio of at least 1/65536. -/
theorem iconSize_isSome (width height : Int) (icon : Option IconRef)
    (h : ∀ n : IconNode, icon = some (IconRef.loaded n) →
      1 ≤ n.images.width ∧ 1 ≤ n.images.height ∧
        (4 ≤ width ∨ n.images.height ≤ n.images.width * 65536)) :
    ∃ a b : Int, iconSize width height icon = some (a, b) := by
  cases icon with
  | none => exact ⟨0, 0, rfl⟩
  | some ref =>
    cases ref with
    | emptyIcon => exact ⟨_, _, rfl⟩
    | loaded n =>
      obtain ⟨hw, hh, hor⟩ := h n rfl
      obtain ⟨hr, hr0⟩ := iconRatio_of_pos n hw hh
      have hr1 : n.images.height ≤ n.images.width * 65536 →
          1 ≤ n.images.width * 65536 / n.images.height := by
        intro hle
        rw [Int.le_ediv_iff_mul_le (by omega)]
        omega
      generalize n.images.width * 65536 / n.images.height = r at hr hr0 hr1
      simp only [iconSize, hr, shr16_eq_ediv]
      split
      · rename_i hgt
        have hne : r ≠ 0 := by
          intro h0
          subst h0
          rcases hor with h4 | hle
          · simp at hgt
            omega
          · have := hr1 hle
            omega
        rw [cdiv_of_ne_zero _ hne]
        exact ⟨_, _, rfl⟩
      · exact ⟨_, _, rfl⟩

/-- The layout is computed whenever the icon sizing completes. -/
theorem layout_isSome (env : Env) (bp : ButtonNode)
    (h : ∀ n : IconNode, bp.icon = some (IconRef.loaded n) →
      1 ≤ n.images.width ∧ 1 ≤ n.images.height ∧
        (4 ≤ bp.width ∨ n.images.height ≤ n.images.width * 65536)) :
    ∃ l : Layout, layout env bp = some l := by
  obtain ⟨a, b, hab⟩ := iconSize_isSome bp.width bp.height bp.icon h
  exact ⟨_, by simp only [layout, hab]; rfl⟩

/-- Scaling by an exact 16.16 ratio `r = iw * 65536 / ih` and shifting back is
the quotient by the intrinsic sizes. -/
theorem mul_ratio_shift {H iw ih r : Int} (hih : 0 < ih) (hr : r * ih = iw * 65536) :
    H * r / 65536 = H * iw / ih := by
  have h1 : H * iw / ih = (H * iw * 65536) / (ih * 65536) :=
    (Int.mul_ediv_mul_of_pos_left _ _ (by norm_num)).symm
  have h2 : H * r / 65536 = (H * r * ih) / (65536 * ih) :=
    (Int.mul_ediv_mul_of_pos_left _ _ hih).symm
  have h3 : H * r * ih = H * iw * 65536 := by
    rw [Int.mul_assoc, hr, Int.mul_assoc]
  rw [h1, h2, h3, Int.mul_comm 65536 ih]

/-- Dividing a 16.16 value by an exact ratio `r = iw * 65536 / ih` is the
quotient by the intrinsic sizes, inverted. -/
theorem shift_div_ratio {W iw ih r : Int} (hih : 0 < ih)
    (hr : r * ih = iw * 65536) : W * 65536 / r = W * ih / iw := by
  have h1 : W * 65536 / r = (W * 65536 * ih) / (r * ih) :=
    (Int.mul_ediv_mul_of_pos_left _ _ hih).symm
  have h2 : W * ih / iw = (W * ih * 65536) / (iw * 65536) :=
    (Int.mul_ediv_mul_of_pos_left _ _ (by norm_num)).symm
  have h3 : W * 65536 * ih = W * ih * 65536 := by
    rw [Int.mul_assoc, Int.mul_comm 65536 ih, Int.mul_assoc]
  rw [h1, h2, h3, hr]

/-- Truncating division by 2 in terms of the rounded-down quotient. -/
theorem tdiv_two (D : Int) :
    Int.tdiv D 2 = if 0 ≤ D then D / 2 else -((-D) / 2) := by
  split_ifs with h
  · exact Int.tdiv_eq_ediv h (by norm_num)
  · have h1 : Int.tdiv (-D) 2 = (-D) / 2 := Int.tdiv_eq_ediv (by omega) (by norm_num)
    rw [← h1, Int.neg_tdiv, Int.neg_neg]

/-- The text width of `textSize` is at least 0, within the room left beside an
icon of positive width, and within `width - 5` beside an icon width of 0, each
floored at 0. -/
theorem textSize_bounds (env : Env) (font : FontType) (width iconWidth : Int)
    (text : Option String) :
    0 ≤ (textSize env font width iconWidth text).1 ∧
    (0 < iconWidth →
      (textSize env font width iconWidth text).1 ≤ max 0 (width - iconWidth - 7)) ∧
    (iconWidth = 0 → (textSize env font width iconWidth text).1 ≤ max 0 (width - 5)) := by
  cases text with
  | none => simp [textSize]
  | some t =>
    simp only [textSize]
    refine ⟨?_, ?_, ?_⟩
    · split_ifs <;> omega
    · intro hi
      split_ifs <;> omega
    · intro hi
      split_ifs <;> omega

/-- Wrap-around leaves a value in the range of a 32-bit `int` unchanged. -/
theorem wrap32_eq_self {a : Int} (h1 : -2147483648 ≤ a) (h2 : a < 2147483648) :
    wrap32 a = a := by
  unfold wrap32
  omega

/-- The product of the icon height and the ratio stays below `2 ^ 31` when the
width in proportion stays below `32768`. -/
theorem mul_ratio_lt {H iw ih : Int} (hH : 0 ≤ H) (hih : 1 ≤ ih)
    (hprod : H * iw < 32768 * ih) :
    H * (iw * 65536 / ih) < 2147483648 := by
  have h1 : iw * 65536 / ih * ih ≤ iw * 65536 := Int.ediv_mul_le _ (by omega)
  have h2 : H * (iw * 65536 / ih * ih) ≤ H * (iw * 65536) :=
    Int.mul_le_mul_of_nonneg_left h1 hH
  have h3 : H * (iw * 65536 / ih) * ih < 2147483648 * ih := by
    have e1 : H * (iw * 65536 / ih) * ih = H * (iw * 65536 / ih * ih) := Int.mul_assoc _ _ _
    have e2 : H * (iw * 65536) = H * iw * 65536 := (Int.mul_assoc _ _ _).symm
    omega
  exact Int.lt_of_mul_lt_mul_right h3 (by omega)

theorem inked_append (fg : GC → Option Pixel) (a b : List XCall) :
    inked fg (a ++ b) = inked fg a ++ inked (a.foldl gcAfter fg) b := by
  induction a generalizing fg with
  | nil => rfl
  | cons c cs ih => simp [inked, ih]

/-- Requests that fail a test leave nothing behind when a run is filtered by it. -/
theorem filter_inked_eq_nil (p : XCall → Bool) (fg : GC → Option Pixel) (cs : List XCall)
    (h : ∀ c ∈ cs, p c = false) : (inked fg cs).filter (fun q => p q.2) = [] := by
  induction cs generalizing fg with
  | nil => rfl
  | cons c cs ih =>
    have hc : p c = false := h c (List.mem_cons_self c cs)
    have hcs : ∀ d ∈ cs, p d = false := fun d hd => h d (List.mem_cons_of_mem c hd)
    simp [inked, hc, ih _ hcs]

/-- A request that uses no graphics context is no fill, gradient, line or
outline. -/
theorem not_drawing_of_context_none {c : XCall} (h : c.context = none) :
    c.isFillRectangle = false ∧ c.isGradient = false ∧ c.isLine = false ∧
      c.isOutline = false := by
  cases c <;> simp_all [XCall.context, XCall.isFillRectangle, XCall.isGradient, XCall.isLine,
    XCall.isOutline]

/-- The requests of a run: the context is created, the background and the
border are drawn, and what follows uses no graphics context. -/
theorem DrawButton_calls (env : Env) (bp : ButtonNode) :
    ∃ rest : List XCall,
      (DrawButton env bp).calls =
        XCall.JXCreateGC bp.drawable (env.JXCreateGC bp.drawable) ::
          (drawBackground bp (env.JXCreateGC bp.drawable) (buttonStyle env bp.type).bg1
              (buttonStyle env bp.type).bg2 ++
            (drawBorder bp (env.JXCreateGC bp.drawable) (buttonStyle env bp.type).up
                (buttonStyle env bp.type).down (buttonStyle env bp.type).decorations ++
              rest)) ∧
      ∀ c ∈ rest, c.context = none := by
  unfold DrawButton
  cases hl : layout env bp with
  | none => exact ⟨[], by simp, by simp⟩
  | some l =>
    refine ⟨(drawIcon env bp (buttonStyle env bp.type).fg l).1 ++
      (drawLabel bp (buttonStyle env bp.type).fg l
        (drawIcon env bp (buttonStyle env bp.type).fg l).2 ++
        [XCall.JXFreeGC (env.JXCreateGC bp.drawable)]), by simp, ?_⟩
    intro c hc
    simp only [List.mem_append, List.mem_singleton] at hc
    rcases hc with hc | hc | hc
    · unfold drawIcon at hc
      cases hi : bp.icon with
      | none => simp [hi] at hc
      | some icon =>
        simp only [hi, List.mem_singleton] at hc
        subst hc
        rfl
    · unfold drawLabel at hc
      split_ifs at hc
      · cases ht : bp.text with
        | none => simp [ht] at hc
        | some text =>
          simp only [ht, List.mem_singleton] at hc
          subst hc
          rfl
      · simp at hc
    · subst hc
      rfl

/-- The border requests are no fills. -/
theorem drawBorder_no_fill (bp : ButtonNode) (gc : GC) (up down : Pixel)
    (decorations : DecorationsType) :
    ∀ c ∈ drawBorder bp gc up down decorations,
      (c.isFillRectangle || c.isGradient) = false := by
  intro c hc
  unfold drawBorder at hc
  split_ifs at hc <;> simp at hc
  · rcases hc with rfl | rfl | rfl | rfl | rfl | rfl <;> rfl
  · rcases hc with rfl | rfl <;> rfl

/-- The background requests are no lines or outlines. -/
theorem drawBackground_no_stroke (bp : ButtonNode) (gc : GC) (bg1 bg2 : Pixel) :
    ∀ c ∈ drawBackground bp gc bg1 bg2, (c.isLine || c.isOutline) = false := by
  intro c hc
  unfold drawBackground at hc
  split_ifs at hc <;> simp at hc
  · rcases hc with rfl | rfl <;> rfl
  · rcases hc with rfl | rfl <;> rfl

/-- Requests that are no fills leave no entry in the fills of a run. -/
theorem filter_fill_eq_nil (fg : GC → Option Pixel) (cs : List XCall)
    (h : ∀ c ∈ cs, (c.isFillRectangle || c.isGradient) = false) :
    (inked fg cs).filter (fun q => q.2.isFillRectangle || q.2.isGradient) = [] :=
  filter_inked_eq_nil (fun c => c.isFillRectangle || c.isGradient) fg cs h

/-- Requests that are no lines or outlines leave no entry in the strokes of a
run. -/
theorem filter_stroke_eq_nil (fg : GC → Option Pixel) (cs : List XCall)
    (h : ∀ c ∈ cs, (c.isLine || c.isOutline) = false) :
    (inked fg cs).filter (fun q => q.2.isLine || q.2.isOutline) = [] :=
  filter_inked_eq_nil (fun c => c.isLine || c.isOutline) fg cs h

/-- The fills of a run are the fills of its background requests. -/
theorem fillsOf_DrawButton (env : Env) (bp : ButtonNode) :
    fillsOf (DrawButton env bp).calls =
      (inked (Function.update (fun _ => none) (env.JXCreateGC bp.drawable) none)
        (drawBackground bp (env.JXCreateGC bp.drawable) (buttonStyle env bp.type).bg1
          (buttonStyle env bp.type).bg2)).filter
        (fun q => q.2.isFillRectangle || q.2.isGradient) := by
  obtain ⟨rest, hcalls, hrest⟩ := DrawButton_calls env bp
  have hrest2 : ∀ c ∈ rest, (c.isFillRectangle || c.isGradient) = false := by
    intro c hc
    obtain ⟨h1, h2, -, -⟩ := not_drawing_of_context_none (hrest c hc)
    simp [h1, h2]
  simp only [fillsOf, hcalls, inked, inked_append]
  rw [List.filter_cons_of_neg (by simp [XCall.isFillRectangle, XCall.isGradient]),
    List.filter_append, List.filter_append,
    filter_fill_eq_nil _ _ (drawBorder_no_fill _ _ _ _ _), filter_fill_eq_nil _ _ hrest2]
  simp [gcAfter]

/-- The strokes of a run are the strokes of its border requests. -/
theorem strokesOf_DrawButton (env : Env) (bp : ButtonNode) :
    ∃ fg : GC → Option Pixel,
      strokesOf (DrawButton env bp).calls =
        (inked fg
          (drawBorder bp (env.JXCreateGC bp.drawable) (buttonStyle env bp.type).up
            (buttonStyle env bp.type).down (buttonStyle env bp.type).decorations)).filter
          (fun q => q.2.isLine || q.2.isOutline) := by
  obtain ⟨rest, hcalls, hrest⟩ := DrawButton_calls env bp
  have hrest2 : ∀ c ∈ rest, (c.isLine || c.isOutline) = false := by
    intro c hc
    obtain ⟨-, -, h1, h2⟩ := not_drawing_of_context_none (hrest c hc)
    simp [h1, h2]
  refine ⟨List.foldl gcAfter
    (gcAfter (fun _ => none) (XCall.JXCreateGC bp.drawable (env.JXCreateGC bp.drawable)))
    (drawBackground bp (env.JXCreateGC bp.drawable) (buttonStyle env bp.type).bg1
      (buttonStyle env bp.type).bg2), ?_⟩
  simp only [strokesOf, hcalls, inked, inked_append]
  rw [List.filter_cons_of_neg (by simp [XCall.isLine, XCall.isOutline]),
    List.filter_append, List.filter_append,
    filter_stroke_eq_nil _ _ (drawBackground_no_stroke _ _ _ _), filter_stroke_eq_nil _ _ hrest2]
  simp only [List.nil_append, List.append_nil]

/-- The requests of a run after the border are icon draws, text draws and the
release of the context. -/
theorem DrawButton_calls_kinds (env : Env) (bp : ButtonNode) :
    ∃ rest : List XCall,
      (DrawButton env bp).calls =
        XCall.JXCreateGC bp.drawable (env.JXCreateGC bp.drawable) ::
          (drawBackground bp (env.JXCreateGC bp.drawable) (buttonStyle env bp.type).bg1
              (buttonStyle env bp.type).bg2 ++
            (drawBorder bp (env.JXCreateGC bp.drawable) (buttonStyle env bp.type).up
                (buttonStyle env bp.type).down (buttonStyle env bp.type).decorations ++
              rest)) ∧
      ∀ c ∈ rest, (c.isPutIcon || c.isRenderString || c.isFreeGC) = true := by
  unfold DrawButton
  cases hl : layout env bp with
  | none => exact ⟨[], by simp, by simp⟩
  | some l =>
    refine ⟨(drawIcon env bp (buttonStyle env bp.type).fg l).1 ++
      (drawLabel bp (buttonStyle env bp.type).fg l
        (drawIcon env bp (buttonStyle env bp.type).fg l).2 ++
        [XCall.JXFreeGC (env.JXCreateGC bp.drawable)]), by simp, ?_⟩
    intro c hc
    simp only [List.mem_append, List.mem_singleton] at hc
    rcases hc with hc | hc | hc
    · unfold drawIcon at hc
      cases hi : bp.icon with
      | none => simp [hi] at hc
      | some icon =>
        simp only [hi, List.mem_singleton] at hc
        subst hc
        rfl
    · unfold drawLabel at hc
      split_ifs at hc
      · cases ht : bp.text with
        | none => simp [ht] at hc
        | some text =>
          simp only [ht, List.mem_singleton] at hc
          subst hc
          rfl
      · simp at hc
    · subst hc
      rfl

/-- An icon draw, a text draw or a release is no change of foreground, line or
outline. -/
theorem not_stroke_of_kind {c : XCall}
    (h : (c.isPutIcon || c.isRenderString || c.isFreeGC) = true) :
    c.isSetForeground = false ∧ c.isLine = false ∧ c.isOutline = false := by
  cases c <;> simp_all [XCall.isPutIcon, XCall.isRenderString, XCall.isFreeGC,
    XCall.isSetForeground, XCall.isLine, XCall.isOutline]

/-- Every background request sets the foreground of `gc` or draws with `gc`. -/
theorem drawBackground_uses (bp : ButtonNode) (gc : GC) (bg1 bg2 : Pixel) :
    ∀ c ∈ drawBackground bp gc bg1 bg2,
      c.isSetForeground = true ∨ c.context = some gc := by
  intro c hc
  unfold drawBackground at hc
  split_ifs at hc <;> simp at hc
  · rcases hc with rfl | rfl
    · exact Or.inl rfl
    · exact Or.inr rfl
  · rcases hc with rfl | rfl
    · exact Or.inl rfl
    · exact Or.inr rfl

/-- Every border request sets the foreground of `gc` or draws with `gc`. -/
theorem drawBorder_uses (bp : ButtonNode) (gc : GC) (up down : Pixel)
    (decorations : DecorationsType) :
    ∀ c ∈ drawBorder bp gc up down decorations,
      c.isSetForeground = true ∨ c.context = some gc := by
  intro c hc
  unfold drawBorder at hc
  split_ifs at hc <;> simp at hc
  · rcases hc with rfl | rfl | rfl | rfl | rfl | rfl
    · exact Or.inl rfl
    · exact Or.inr rfl
    · exact Or.inr rfl
    · exact Or.inl rfl
    · exact Or.inr rfl
    · exact Or.inr rfl
  · rcases hc with rfl | rfl
    · exact Or.inl rfl
    · exact Or.inr rfl

/-- A request that sets a foreground or draws with `gc` is no icon draw, text
draw, creation or release, and the context it draws with is `gc`. -/
theorem kind_of_uses {c : XCall} {gc : GC}
    (h : c.isSetForeground = true ∨ c.context = some gc) :
    c.isPutIcon = false ∧ c.isRenderString = false ∧ c.isCreateGC = false ∧
      c.isFreeGC = false ∧ ∀ g : GC, c.context = some g → g = gc := by
  cases c <;> simp_all [XCall.isPutIcon, XCall.isRenderString, XCall.isCreateGC,
    XCall.isFreeGC, XCall.isSetForeground, XCall.context]

/-- The run of `DrawButton` when the layout is computed. -/
theorem DrawButton_of_layout {env : Env} {bp : ButtonNode} {l : Layout}
    (h : layout env bp = some l) :
    DrawButton env bp =
      { calls :=
          XCall.JXCreateGC bp.drawable (env.JXCreateGC bp.drawable) ::
            ((drawBackground bp (env.JXCreateGC bp.drawable) (buttonStyle env bp.type).bg1
                (buttonStyle env bp.type).bg2 ++
              drawBorder bp (env.JXCreateGC bp.drawable) (buttonStyle env bp.type).up
                (buttonStyle env bp.type).down (buttonStyle env bp.type).decorations) ++
              ((drawIcon env bp (buttonStyle env bp.type).fg l).1 ++
                drawLabel bp (buttonStyle env bp.type).fg l
                  (drawIcon env bp (buttonStyle env bp.type).fg l).2) ++
              [XCall.JXFreeGC (env.JXCreateGC bp.drawable)])
        status := Status.returned } := by
  simp [DrawButton, h]

/-- The run of `DrawButton` when the icon sizing divides by zero. -/
theorem DrawButton_of_no_layout {env : Env} {bp : ButtonNode}
    (h : layout env bp = none) :
    DrawButton env bp =
      { calls :=
          XCall.JXCreateGC bp.drawable (env.JXCreateGC bp.drawable) ::
            (drawBackground bp (env.JXCreateGC bp.drawable) (buttonStyle env bp.type).bg1
                (buttonStyle env bp.type).bg2 ++
              drawBorder bp (env.JXCreateGC bp.drawable) (buttonStyle env bp.type).up
                (buttonStyle env bp.type).down (buttonStyle env bp.type).decorations)
        status := Status.divisionByZero } := by
  simp [DrawButton, h]

/-- In a run that returns, the context is created first and released last, once
each, and every fill, gradient, line and outline in between draws with it. -/
theorem context_scoped_of_returned (env : Env) (bp : ButtonNode)
    (h : (DrawButton env bp).status = Status.returned) :
    ∃ mid : List XCall,
      (DrawButton env bp).calls =
        XCall.JXCreateGC bp.drawable (env.JXCreateGC bp.drawable) ::
          (mid ++ [XCall.JXFreeGC (env.JXCreateGC bp.drawable)]) ∧
      ∀ c ∈ mid, c.isCreateGC = false ∧ c.isFreeGC = false ∧
        ∀ g : GC, c.context = some g → g = env.JXCreateGC bp.drawable := by
  cases hl : layout env bp with
  | none =>
    rw [DrawButton_of_no_layout hl] at h
    simp at h
  | some l =>
    rw [DrawButton_of_layout hl]
    refine ⟨_, rfl, ?_⟩
    intro c hc
    simp only [List.mem_append] at hc
    rcases hc with (hc | hc) | hc | hc
    · obtain ⟨-, -, h3, h4, h5⟩ := kind_of_uses (drawBackground_uses _ _ _ _ c hc)
      exact ⟨h3, h4, h5⟩
    · obtain ⟨-, -, h3, h4, h5⟩ := kind_of_uses (drawBorder_uses _ _ _ _ _ c hc)
      exact ⟨h3, h4, h5⟩
    · unfold drawIcon at hc
      cases hi : bp.icon with
      | none => simp [hi] at hc
      | some icon =>
        simp only [hi, List.mem_singleton] at hc
        subst hc
        exact ⟨rfl, rfl, fun g hg => by simp [XCall.context] at hg⟩
    · unfold drawLabel at hc
      split_ifs at hc
      · cases ht : bp.text with
        | none => simp [ht] at hc
        | some text =>
          simp only [ht, List.mem_singleton] at hc
          subst hc
          exact ⟨rfl, rfl, fun g hg => by simp [XCall.context] at hg⟩
      · simp at hc

/-- The icon draws of a run that returns are the requests of `drawIcon`. -/
theorem putIcons_of_layout {env : Env} {bp : ButtonNode} {l : Layout}
    (h : layout env bp = some l) :
    (DrawButton env bp).calls.filter XCall.isPutIcon =
      (drawIcon env bp (buttonStyle env bp.type).fg l).1 := by
  have h1 : (drawBackground bp (env.JXCreateGC bp.drawable) (buttonStyle env bp.type).bg1
      (buttonStyle env bp.type).bg2).filter XCall.isPutIcon = [] := by
    rw [List.filter_eq_nil_iff]
    intro c hc
    simp [(kind_of_uses (drawBackground_uses _ _ _ _ c hc)).1]
  have h2 : (drawBorder bp (env.JXCreateGC bp.drawable) (buttonStyle env bp.type).up
      (buttonStyle env bp.type).down (buttonStyle env bp.type).decorations).filter
      XCall.isPutIcon = [] := by
    rw [List.filter_eq_nil_iff]
    intro c hc
    simp [(kind_of_uses (drawBorder_uses _ _ _ _ _ c hc)).1]
  have h3 : (drawLabel bp (buttonStyle env bp.type).fg l
      (drawIcon env bp (buttonStyle env bp.type).fg l).2).filter XCall.isPutIcon = [] := by
    unfold drawLabel
    split_ifs
    · cases bp.text <;> simp [XCall.isPutIcon]
    · rfl
  have h4 : (drawIcon env bp (buttonStyle env bp.type).fg l).1.filter XCall.isPutIcon =
      (drawIcon env bp (buttonStyle env bp.type).fg l).1 := by
    unfold drawIcon
    cases bp.icon <;> simp [XCall.isPutIcon]
  rw [DrawButton_of_layout h]
  simp [XCall.isPutIcon, h1, h2, h3, h4]

/-- The text draws of a run that returns are the requests of `drawLabel`. -/
theorem renderStrings_of_layout {env : Env} {bp : ButtonNode} {l : Layout}
    (h : layout env bp = some l) :
    (DrawButton env bp).calls.filter XCall.isRenderString =
      drawLabel bp (buttonStyle env bp.type).fg l
        (drawIcon env bp (buttonStyle env bp.type).fg l).2 := by
  have h1 : (drawBackground bp (env.JXCreateGC bp.drawable) (buttonStyle env bp.type).bg1
      (buttonStyle env bp.type).bg2).filter XCall.isRenderString = [] := by
    rw [List.filter_eq_nil_iff]
    intro c hc
    simp [(kind_of_uses (drawBackground_uses _ _ _ _ c hc)).2.1]
  have h2 : (drawBorder bp (env.JXCreateGC bp.drawable) (buttonStyle env bp.type).up
      (buttonStyle env bp.type).down (buttonStyle env bp.type).decorations).filter
      XCall.isRenderString = [] := by
    rw [List.filter_eq_nil_iff]
    intro c hc
    simp [(kind_of_uses (drawBorder_uses _ _ _ _ _ c hc)).2.1]
  have h3 : (drawLabel bp (buttonStyle env bp.type).fg l
      (drawIcon env bp (buttonStyle env bp.type).fg l).2).filter XCall.isRenderString =
      drawLabel bp (buttonStyle env bp.type).fg l
        (drawIcon env bp (buttonStyle env bp.type).fg l).2 := by
    unfold drawLabel
    split_ifs
    · cases bp.text <;> simp [XCall.isRenderString]
    · rfl
  have h4 : (drawIcon env bp (buttonStyle env bp.type).fg l).1.filter XCall.isRenderString =
      [] := by
    unfold drawIcon
    cases bp.icon <;> simp [XCall.isRenderString]
  rw [DrawButton_of_layout h]
  simp [XCall.isRenderString, h1, h2, h3, h4]

/-- In a run that returns, a button with an icon gets exactly one icon draw, at
`(x + xoffset, y + (height - iconHeight + 1) / 2)` with the computed size and
the pixel of the foreground colour, and its text starts at
`x + xoffset + iconWidth + 2`; a button without icon gets no icon draw and its
text starts at `x + xoffset`. -/
theorem icon_and_text_requests_of_layout (env : Env) (bp : ButtonNode) (l : Layout)
    (h : layout env bp = some l) :
    (∀ icon : IconRef, bp.icon = some icon →
      (DrawButton env bp).calls.filter XCall.isPutIcon =
        [XCall.PutIcon bp.visual icon bp.drawable (env.colors (buttonStyle env bp.type).fg)
          (bp.x + l.xoffset) (bp.y + Int.tdiv (bp.height - l.iconHeight + 1) 2)
          l.iconWidth l.iconHeight] ∧
      ∀ c ∈ (DrawButton env bp).calls.filter XCall.isRenderString,
        ∃ text : String, c =
          XCall.RenderString bp.visual bp.drawable bp.font (buttonStyle env bp.type).fg
            (bp.x + (l.xoffset + (l.iconWidth + 2)))
            (bp.y + Int.tdiv (bp.height - l.textHeight + 1) 2) l.textWidth text) ∧
    (bp.icon = none →
      (DrawButton env bp).calls.filter XCall.isPutIcon = [] ∧
      ∀ c ∈ (DrawButton env bp).calls.filter XCall.isRenderString,
        ∃ text : String, c =
          XCall.RenderString bp.visual bp.drawable bp.font (buttonStyle env bp.type).fg
            (bp.x + l.xoffset)
            (bp.y + Int.tdiv (bp.height - l.textHeight + 1) 2) l.textWidth text) := by
  rw [putIcons_of_layout h, renderStrings_of_layout h]
  constructor
  · intro icon hi
    refine ⟨by simp [drawIcon, hi], ?_⟩
    intro c hc
    unfold drawLabel at hc
    split_ifs at hc
    · cases ht : bp.text with
      | none => simp [ht] at hc
      | some text =>
        simp only [ht, List.mem_singleton] at hc
        exact ⟨text, by rw [hc]; simp [drawIcon, hi]⟩
    · simp at hc
  · intro hi
    refine ⟨by simp [drawIcon, hi], ?_⟩
    intro c hc
    unfold drawLabel at hc
    split_ifs at hc
    · cases ht : bp.text with
      | none => simp [ht] at hc
      | some text =>
        simp only [ht, List.mem_singleton] at hc
        exact ⟨text, by rw [hc]; simp [drawIcon, hi]⟩
    · simp at hc

/-! ## Theorems -/

/-- C1: the colour selection of `DrawButton` is the fixed style table: Label and
Menu give the menu row, MenuActive the menu-active row with the bevel colours
swapped, Tray and Task the tray row, TrayActive and TaskActive the tray-active
row with the bevel colours swapped, and every kind outside the seven named ones
gives exactly the style of Menu. -/
theorem buttonStyle_eq_table (env : Env) :
    buttonStyle env ButtonType.BUTTON_LABEL = menuRow env ∧
    buttonStyle env ButtonType.BUTTON_MENU = menuRow env ∧
    buttonStyle env ButtonType.BUTTON_MENU_ACTIVE = menuActiveRow env ∧
    buttonStyle env ButtonType.BUTTON_TRAY = trayRow env ∧
    buttonStyle env ButtonType.BUTTON_TASK = trayRow env ∧
    buttonStyle env ButtonType.BUTTON_TRAY_ACTIVE = trayActiveRow env ∧
    buttonStyle env ButtonType.BUTTON_TASK_ACTIVE = trayActiveRow env ∧
    ∀ raw : Nat, buttonStyle env (ButtonType.other raw) = buttonStyle env ButtonType.BUTTON_MENU ∧
      buttonStyle env (ButtonType.other raw) = menuRow env := by
  refine ⟨rfl, rfl, rfl, rfl, rfl, rfl, rfl, fun raw => ⟨rfl, rfl⟩⟩

/-- C2: whatever the prior state of the button, `ResetButton` leaves kind Menu,
alignment Left, position (0, 0), size 1 x 1, no icon, no text, fill set, border
clear, the tray font, drawable `d` and visual `visual`; the result does not
depend on the prior state. -/
theorem ResetButton_eq_default (bp : ButtonNode) (d : Drawable) (visual : VisualData) :
    ResetButton bp d visual = defaultButton d visual ∧
    ∀ other : ButtonNode, ResetButton other d visual = ResetButton bp d visual := by
  refine ⟨rfl, fun other => rfl⟩

/-- Unfolding of `layout` at a completed run. -/
theorem layout_eq_some {env : Env} {bp : ButtonNode} {l : Layout}
    (h : layout env bp = some l) :
    iconSize bp.width bp.height bp.icon = some (l.iconWidth, l.iconHeight) ∧
    l.textWidth = (textSize env bp.font bp.width l.iconWidth bp.text).1 ∧
    l.textHeight = (textSize env bp.font bp.width l.iconWidth bp.text).2 ∧
    l.xoffset = contentOffset bp.alignment bp.width l.iconWidth l.textWidth := by
  unfold layout at h
  split at h
  · exact absurd h (by simp)
  · rename_i iw ih hs
    simp only [Option.some.injEq] at h
    subst h
    exact ⟨hs, rfl, rfl, rfl⟩

/-- C3: at a 1 x 1 button with a loaded icon of intrinsic size 1 x 65537 the
fixed-point ratio is 0, the computed width 0 exceeds `width - 4`, the clamp
branch divides by the ratio, and no icon size is computed. -/
theorem iconSize_tall_icon_no_result :
    iconRatio { images := { width := 1, height := 65537 } } = some 0 ∧
    shr16 ((1 - 4) * 0) > 1 - 4 ∧
    cdiv (shl16 (1 - 4)) 0 = none ∧
    iconSize 1 1 (some (sampleIcon 1 65537)) = none := by
  refine ⟨by decide, by decide, by decide, by decide⟩

/-- C5: whenever the layout of `DrawButton` is computed, whatever the geometry,
the icon, the text and the natural width that the font reports, the text width
is at least 0, and it is 0 when the button has no text. -/
theorem textWidth_nonneg (env : Env) (bp : ButtonNode) (l : Layout)
    (h : layout env bp = some l) :
    0 ≤ l.textWidth ∧ (bp.text = none → l.textWidth = 0) := by
  obtain ⟨-, htw, -, -⟩ := layout_eq_some h
  rw [htw]
  constructor
  · cases bp.text with
    | none => simp [textSize]
    | some text =>
      simp only [textSize]
      split_ifs <;> omega
  · intro hn
    simp [hn, textSize]

/-- Witness of `textWidth_nonneg`: with a font that reports the natural width
-3 the text width of a 100 x 20 button is 0. -/
theorem textWidth_nonneg_witness :
    layout (sampleEnv (-3)) (sampleButton 100 20 none (some "x") AlignmentType.ALIGN_LEFT) =
      some { iconWidth := 0, iconHeight := 0, textWidth := 0, textHeight := 12, xoffset := 2 } ∧
    (0 : Int) ≤ 0 :=
  ⟨by decide,
    (textWidth_nonneg (sampleEnv (-3))
      (sampleButton 100 20 none (some "x") AlignmentType.ALIGN_LEFT)
      { iconWidth := 0, iconHeight := 0, textWidth := 0, textHeight := 12, xoffset := 2 }
      (by decide)).1⟩

/-- C6: `DrawButton` on a 1 x 1 button with a loaded icon of intrinsic size
1 x 65537 ends in a division by zero, whatever the environment, the text and the
alignment: the input is in the documented domain, the ratio is 0 and the width
clamp divides by it. -/
theorem DrawButton_tall_icon_divides_by_zero (env : Env) (text : Option String)
    (alignment : AlignmentType) :
    (DrawButton env (sampleButton 1 1 (some (sampleIcon 1 65537)) text alignment)).status =
      Status.divisionByZero := by
  have h : layout env (sampleButton 1 1 (some (sampleIcon 1 65537)) text alignment) = none := by
    have hi : iconSize 1 1 (some (sampleIcon 1 65537)) = none := by decide
    simp [layout, sampleButton, hi]
  simp [DrawButton, h]

/-- C7: whenever the layout of `DrawButton` is computed, with Center alignment
the horizontal offset is at least 0 and equals the larger of 0 and the
truncated quotient `(width - iconWidth - textWidth + 1) / 2`, and with Left
alignment it is exactly 2. -/
theorem xoffset_eq (env : Env) (bp : ButtonNode) (l : Layout)
    (h : layout env bp = some l) :
    (bp.alignment = AlignmentType.ALIGN_CENTER →
      0 ≤ l.xoffset ∧
      l.xoffset = max 0 (Int.tdiv (bp.width - l.iconWidth - l.textWidth + 1) 2)) ∧
    (bp.alignment = AlignmentType.ALIGN_LEFT → l.xoffset = 2) := by
  obtain ⟨-, -, -, hx⟩ := layout_eq_some h
  rw [hx]
  constructor
  · intro hc
    simp only [contentOffset, hc, if_true]
    split_ifs <;> omega
  · intro hl
    simp [contentOffset, hl]

/-- Witness of `xoffset_eq`: a centred 100 x 20 button without icon and with
natural text width 80 has offset 10. -/
theorem xoffset_eq_witness :
    layout (sampleEnv 80) (sampleButton 100 20 none (some "x") AlignmentType.ALIGN_CENTER) =
      some { iconWidth := 0, iconHeight := 0, textWidth := 80, textHeight := 12, xoffset := 10 } ∧
    (0 : Int) ≤ 10 ∧ (10 : Int) = max 0 (Int.tdiv (100 - 0 - 80 + 1) 2) :=
  ⟨by decide,
    (xoffset_eq (sampleEnv 80)
      (sampleButton 100 20 none (some "x") AlignmentType.ALIGN_CENTER)
      { iconWidth := 0, iconHeight := 0, textWidth := 80, textHeight := 12, xoffset := 10 }
      (by decide)).1 rfl⟩

/-- C8: for a button with fill set, if the resolved background pixels are equal
the run has exactly one fill request, a solid rectangle at (x, y, width, height)
drawn with foreground bg1, and no gradient; otherwise it has exactly one fill
request, a horizontal gradient from bg1 to bg2 at (x, y, width, height), and no
solid rectangle.  Kinds Label and Menu have equal background pixels. -/
theorem fill_requests (env : Env) (bp : ButtonNode) (hfill : bp.fill = true) :
    ((buttonStyle env bp.type).bg1 = (buttonStyle env bp.type).bg2 →
      fillsOf (DrawButton env bp).calls =
        [(some (buttonStyle env bp.type).bg1,
          XCall.JXFillRectangle bp.drawable (env.JXCreateGC bp.drawable)
            bp.x bp.y bp.width bp.height)]) ∧
    ((buttonStyle env bp.type).bg1 ≠ (buttonStyle env bp.type).bg2 →
      fillsOf (DrawButton env bp).calls =
        [(some (buttonStyle env bp.type).bg1,
          XCall.DrawHorizontalGradient bp.drawable (env.JXCreateGC bp.drawable)
            (buttonStyle env bp.type).bg1 (buttonStyle env bp.type).bg2
            bp.x bp.y bp.width bp.height)]) ∧
    (bp.type = ButtonType.BUTTON_LABEL ∨ bp.type = ButtonType.BUTTON_MENU →
      (buttonStyle env bp.type).bg1 = (buttonStyle env bp.type).bg2) := by
  rw [fillsOf_DrawButton]
  refine ⟨fun h => ?_, fun h => ?_, fun h => ?_⟩
  · simp [drawBackground, hfill, h, inked, gcAfter, XCall.context, XCall.isFillRectangle,
      XCall.isGradient]
  · simp [drawBackground, hfill, h, inked, gcAfter, XCall.context, XCall.isFillRectangle,
      XCall.isGradient]
  · rcases h with h | h <;> rw [h] <;> rfl

/-- Witness of `fill_requests`: a filled 100 x 20 menu button at (5, 6) gets one
solid rectangle in the menu background pixel. -/
theorem fill_requests_witness :
    fillsOf (DrawButton (sampleEnv 80)
        (sampleButton 100 20 none (some "x") AlignmentType.ALIGN_LEFT)).calls =
      [(some 1, XCall.JXFillRectangle 1 7 5 6 100 20)] :=
  (fill_requests (sampleEnv 80) (sampleButton 100 20 none (some "x") AlignmentType.ALIGN_LEFT)
    rfl).1 rfl

/-- C9: for a button with fill clear, whatever its kind, geometry, border flag,
icon and text, the run contains no solid rectangle fill and no gradient fill. -/
theorem no_fill_requests (env : Env) (bp : ButtonNode) (hfill : bp.fill = false) :
    (DrawButton env bp).calls.filter (fun c => c.isFillRectangle || c.isGradient) = [] ∧
    fillsOf (DrawButton env bp).calls = [] := by
  have h2 : fillsOf (DrawButton env bp).calls = [] := by
    rw [fillsOf_DrawButton]
    simp [drawBackground, hfill, inked]
  refine ⟨?_, h2⟩
  obtain ⟨rest, hcalls, hrest⟩ := DrawButton_calls env bp
  rw [List.filter_eq_nil_iff]
  intro c hc
  rw [hcalls] at hc
  have hbg : drawBackground bp (env.JXCreateGC bp.drawable) (buttonStyle env bp.type).bg1
      (buttonStyle env bp.type).bg2 = [] := by
    simp [drawBackground, hfill]
  rw [hbg] at hc
  simp only [List.mem_cons, List.mem_append, List.nil_append] at hc
  rcases hc with rfl | hc | hc
  · simp [XCall.isFillRectangle, XCall.isGradient]
  · simp [drawBorder_no_fill _ _ _ _ _ c hc]
  · obtain ⟨h1, h2, -, -⟩ := not_drawing_of_context_none (hrest c hc)
    simp [h1, h2]

/-- Witness of `no_fill_requests`: the 100 x 20 sample button with fill clear
gets no fill request. -/
theorem no_fill_requests_witness :
    (DrawButton (sampleEnv 80)
        { sampleButton 100 20 none (some "x") AlignmentType.ALIGN_LEFT with
          fill := false }).calls.filter
      (fun c => c.isFillRectangle || c.isGradient) = [] :=
  (no_fill_requests (sampleEnv 80)
    { sampleButton 100 20 none (some "x") AlignmentType.ALIGN_LEFT with fill := false }
    rfl).1

/-- C10: for a button with border set and resolved decoration style Motif, the
run draws exactly four lines and no rectangle outline: the top edge and the left
edge with the bevel-up pixel as foreground, then the bottom edge and the right
edge with the bevel-down pixel as foreground; for a size of at least 1 x 1 the
pixels of the four lines are exactly the boundary of the width x height
rectangle at (x, y). -/
theorem motif_border_requests (env : Env) (bp : ButtonNode) (hborder : bp.border = true)
    (hmotif : (buttonStyle env bp.type).decorations = DecorationsType.DECO_MOTIF) :
    strokesOf (DrawButton env bp).calls =
      [ (some (buttonStyle env bp.type).up,
          XCall.JXDrawLine bp.drawable (env.JXCreateGC bp.drawable)
            bp.x bp.y (bp.x + bp.width - 1) bp.y),
        (some (buttonStyle env bp.type).up,
          XCall.JXDrawLine bp.drawable (env.JXCreateGC bp.drawable)
            bp.x bp.y bp.x (bp.y + bp.height - 1)),
        (some (buttonStyle env bp.type).down,
          XCall.JXDrawLine bp.drawable (env.JXCreateGC bp.drawable)
            bp.x (bp.y + bp.height - 1) (bp.x + bp.width - 1) (bp.y + bp.height - 1)),
        (some (buttonStyle env bp.type).down,
          XCall.JXDrawLine bp.drawable (env.JXCreateGC bp.drawable)
            (bp.x + bp.width - 1) bp.y (bp.x + bp.width - 1) (bp.y + bp.height - 1)) ] ∧
    (1 ≤ bp.width → 1 ≤ bp.height → ∀ px py : Int,
      (∃ q ∈ strokesOf (DrawButton env bp).calls, q.2.covers px py) ↔
        onBoundary bp.x bp.y bp.width bp.height px py) := by
  obtain ⟨fg, hfg⟩ := strokesOf_DrawButton env bp
  have hlines :
      (inked fg
        (drawBorder bp (env.JXCreateGC bp.drawable) (buttonStyle env bp.type).up
          (buttonStyle env bp.type).down (buttonStyle env bp.type).decorations)).filter
        (fun q => q.2.isLine || q.2.isOutline) =
      [ (some (buttonStyle env bp.type).up,
          XCall.JXDrawLine bp.drawable (env.JXCreateGC bp.drawable)
            bp.x bp.y (bp.x + bp.width - 1) bp.y),
        (some (buttonStyle env bp.type).up,
          XCall.JXDrawLine bp.drawable (env.JXCreateGC bp.drawable)
            bp.x bp.y bp.x (bp.y + bp.height - 1)),
        (some (buttonStyle env bp.type).down,
          XCall.JXDrawLine bp.drawable (env.JXCreateGC bp.drawable)
            bp.x (bp.y + bp.height - 1) (bp.x + bp.width - 1) (bp.y + bp.height - 1)),
        (some (buttonStyle env bp.type).down,
          XCall.JXDrawLine bp.drawable (env.JXCreateGC bp.drawable)
            (bp.x + bp.width - 1) bp.y (bp.x + bp.width - 1) (bp.y + bp.height - 1)) ] := by
    simp [drawBorder, hborder, hmotif, inked, gcAfter, XCall.context, XCall.isLine,
      XCall.isOutline]
  rw [hfg, hlines]
  refine ⟨rfl, ?_⟩
  intro hw hh px py
  simp only [List.mem_cons, List.mem_singleton, List.not_mem_nil, or_false, exists_eq_or_imp,
    exists_eq_left, XCall.covers, onBoundary, true_and]
  constructor
  · intro h
    omega
  · intro h
    by_cases h1 : px = bp.x
    · omega
    · by_cases h2 : py = bp.y
      · omega
      · omega

/-- Witness of `motif_border_requests`: the bordered 100 x 20 sample menu button
at (5, 6) gets the four bevel lines of the rectangle from (5, 6) to (104, 25). -/
theorem motif_border_requests_witness :
    strokesOf (DrawButton (sampleEnv 80)
        (sampleButton 100 20 none (some "x") AlignmentType.ALIGN_LEFT)).calls =
      [ (some 2, XCall.JXDrawLine 1 7 5 6 104 6),
        (some 2, XCall.JXDrawLine 1 7 5 6 5 25),
        (some 3, XCall.JXDrawLine 1 7 5 25 104 25),
        (some 3, XCall.JXDrawLine 1 7 104 6 104 25) ] :=
  (motif_border_requests (sampleEnv 80)
    (sampleButton 100 20 none (some "x") AlignmentType.ALIGN_LEFT) rfl rfl).1

/-- C11: for a button with border set and a resolved decoration style other
than Motif, the run draws exactly one rectangle outline, at (x, y) with extents
(width - 1, height - 1) and the bevel-down pixel as foreground, and no line, and
the only foregrounds it sets are bg1 (when it fills) and the bevel-down pixel;
for a button with border clear the run draws neither a line nor an outline. -/
theorem flat_border_requests (env : Env) (bp : ButtonNode) :
    (bp.border = true →
      (buttonStyle env bp.type).decorations ≠ DecorationsType.DECO_MOTIF →
      strokesOf (DrawButton env bp).calls =
        [ (some (buttonStyle env bp.type).down,
            XCall.JXDrawRectangle bp.drawable (env.JXCreateGC bp.drawable)
              bp.x bp.y (bp.width - 1) (bp.height - 1)) ] ∧
      (DrawButton env bp).calls.filter XCall.isSetForeground =
        (if bp.fill then
          [XCall.JXSetForeground (env.JXCreateGC bp.drawable) (buttonStyle env bp.type).bg1]
        else []) ++
        [XCall.JXSetForeground (env.JXCreateGC bp.drawable) (buttonStyle env bp.type).down]) ∧
    (bp.border = false →
      strokesOf (DrawButton env bp).calls = [] ∧
      (DrawButton env bp).calls.filter (fun c => c.isLine || c.isOutline) = []) := by
  constructor
  · intro hborder hflat
    constructor
    · obtain ⟨fg, hfg⟩ := strokesOf_DrawButton env bp
      rw [hfg]
      simp [drawBorder, hborder, hflat, inked, gcAfter, XCall.context, XCall.isLine,
        XCall.isOutline]
    · obtain ⟨rest, hcalls, hrest⟩ := DrawButton_calls_kinds env bp
      have hrest2 : rest.filter XCall.isSetForeground = [] := by
        rw [List.filter_eq_nil_iff]
        intro c hc
        simp [(not_stroke_of_kind (hrest c hc)).1]
      rw [hcalls, List.filter_cons_of_neg (by simp [XCall.isSetForeground]),
        List.filter_append, List.filter_append, hrest2]
      simp only [drawBorder, hborder, hflat, if_true, if_false, List.append_nil]
      congr 1
      unfold drawBackground
      split_ifs <;> simp [XCall.isSetForeground]
  · intro hborder
    obtain ⟨rest, hcalls, hrest⟩ := DrawButton_calls_kinds env bp
    constructor
    · obtain ⟨fg, hfg⟩ := strokesOf_DrawButton env bp
      rw [hfg]
      simp [drawBorder, hborder, inked]
    · rw [List.filter_eq_nil_iff]
      intro c hc
      rw [hcalls] at hc
      have hbd : drawBorder bp (env.JXCreateGC bp.drawable) (buttonStyle env bp.type).up
          (buttonStyle env bp.type).down (buttonStyle env bp.type).decorations = [] := by
        simp [drawBorder, hborder]
      rw [hbd] at hc
      simp only [List.mem_cons, List.mem_append, List.nil_append] at hc
      rcases hc with rfl | hc | hc
      · simp [XCall.isLine, XCall.isOutline]
      · simp [drawBackground_no_stroke _ _ _ _ c hc]
      · obtain ⟨-, h1, h2⟩ := not_stroke_of_kind (hrest c hc)
        simp [h1, h2]

/-- Witness of `flat_border_requests`: the bordered 100 x 20 sample button of
kind Tray (flat decorations) at (5, 6) gets one outline with extents (99, 19) in
the tray bevel-down pixel. -/
theorem flat_border_requests_witness :
    strokesOf (DrawButton (sampleEnv 80)
        { sampleButton 100 20 none (some "x") AlignmentType.ALIGN_LEFT with
          type := ButtonType.BUTTON_TRAY }).calls =
      [ (some 13, XCall.JXDrawRectangle 1 7 5 6 99 19) ] :=
  ((flat_border_requests (sampleEnv 80)
    { sampleButton 100 20 none (some "x") AlignmentType.ALIGN_LEFT with
      type := ButtonType.BUTTON_TRAY }).1 rfl (by decide)).1

/-- C12: for a button whose icon is the empty icon the layout is computed and
the icon is a square of side `min (width - 4) (height - 4)`; for a 40 x 40
button the side is 36. -/
theorem emptyIcon_square (env : Env) (bp : ButtonNode)
    (hicon : bp.icon = some IconRef.emptyIcon) :
    (∃ l : Layout, layout env bp = some l ∧
      l.iconWidth = min (bp.width - 4) (bp.height - 4) ∧
      l.iconHeight = min (bp.width - 4) (bp.height - 4)) ∧
    iconSize 40 40 (some IconRef.emptyIcon) = some (36, 36) := by
  refine ⟨?_, by decide⟩
  have hs : iconSize bp.width bp.height bp.icon =
      some (min (bp.width - 4) (bp.height - 4), min (bp.width - 4) (bp.height - 4)) := by
    rw [hicon]
    simp only [iconSize, Min]
    split_ifs with h
    · rw [min_eq_right (by omega)]
    · rw [min_eq_left (by omega)]
  exact ⟨_, by simp only [layout, hs]; rfl, rfl, rfl⟩

/-- Witness of `emptyIcon_square`: the 40 x 40 sample button with the empty
icon has a layout with a 36 x 36 icon. -/
theorem emptyIcon_square_witness :
    ∃ l : Layout,
      layout (sampleEnv 80)
        (sampleButton 40 40 (some IconRef.emptyIcon) none AlignmentType.ALIGN_LEFT) = some l ∧
      l.iconWidth = min (40 - 4) (40 - 4) ∧ l.iconHeight = min (40 - 4) (40 - 4) :=
  (emptyIcon_square (sampleEnv 80)
    (sampleButton 40 40 (some IconRef.emptyIcon) none AlignmentType.ALIGN_LEFT) rfl).1

/-- C13: for a button of width at least 4 (and any height, so also every height
of at least 4) and a loaded icon of intrinsic size `iw` x `ih`, both at least 1,
whose ratio is exact in 16.16 fixed point (`ih` divides `iw * 65536`), the icon
size of `DrawButton` in exact integer arithmetic is the fit-within-box
reference; for a 50 x 20 button with a 200 x 100 icon it is 32 x 16, the width
32 being within 46 (no clamp). -/
theorem iconSize_eq_fitWithinBox (width height : Int) (icon : IconNode)
    (hw : 4 ≤ width)
    (hiw : 1 ≤ icon.images.width) (hih : 1 ≤ icon.images.height)
    (hdvd : icon.images.height ∣ icon.images.width * 65536) :
    iconSize width height (some (IconRef.loaded icon)) =
      some (fitWithinBox width height icon.images.width icon.images.height) ∧
    iconSize 50 20 (some (sampleIcon 200 100)) = some (32, 16) ∧
    fitWithinBox 50 20 200 100 = (32, 20 - 4) ∧
    shr16 ((20 - 4) * 131072) ≤ 50 - 4 := by
  refine ⟨?_, by decide, by decide, by decide⟩
  obtain ⟨hr, hr0⟩ := iconRatio_of_pos icon hiw hih
  have hmul : icon.images.width * 65536 / icon.images.height * icon.images.height =
      icon.images.width * 65536 := Int.ediv_mul_cancel hdvd
  generalize icon.images.width * 65536 / icon.images.height = r at hr hr0 hmul
  have hrpos : 0 < r := by
    by_contra h
    have h0 : r = 0 := by omega
    rw [h0] at hmul
    omega
  have hscale := mul_ratio_shift (H := height - 4) (by omega) hmul
  have hdiv := shift_div_ratio (W := width - 4) (by omega) hmul
  simp only [iconSize, hr, shr16_eq_ediv, fitWithinBox, hscale]
  by_cases hfit : (height - 4) * icon.images.width / icon.images.height ≤ width - 4
  · rw [if_neg (by omega), if_pos hfit]
  · rw [if_pos (by omega), if_neg hfit, cdiv_of_ne_zero _ (by omega)]
    unfold shl16
    rw [Int.tdiv_eq_ediv (by omega) (by omega), hdiv]

/-- Witness of `iconSize_eq_fitWithinBox`: a 20 x 50 button with a 200 x 100
icon takes the clamp branch and gets the size 16 x 8. -/
theorem iconSize_eq_fitWithinBox_witness :
    iconSize 20 50 (some (IconRef.loaded { images := { width := 200, height := 100 } })) =
      some (fitWithinBox 20 50 200 100) ∧
    fitWithinBox 20 50 200 100 = (16, 8) :=
  ⟨(iconSize_eq_fitWithinBox 20 50 { images := { width := 200, height := 100 } }
      (by decide) (by decide) (by decide) (by decide)).1, by decide⟩

/-- C14: for a button without icon whose text has a natural width `n` with
`0 ≤ n` and `n + 5 ≤ width`, the layout is computed, the text width is `n`, and
with Center alignment the offset is the truncated quotient
`(width - n + 1) / 2`; for a 100 x 20 button with natural width 80 the text
width is 80 and the Center offset is 10. -/
theorem text_unclamped (env : Env) (bp : ButtonNode) (text : String)
    (hicon : bp.icon = none) (htext : bp.text = some text)
    (hn : 0 ≤ env.GetStringWidth bp.font text)
    (hfit : env.GetStringWidth bp.font text + 5 ≤ bp.width) :
    (∃ l : Layout, layout env bp = some l ∧
      l.textWidth = env.GetStringWidth bp.font text ∧
      (bp.alignment = AlignmentType.ALIGN_CENTER →
        l.xoffset = Int.tdiv (bp.width - env.GetStringWidth bp.font text + 1) 2)) ∧
    layout (sampleEnv 80) (sampleButton 100 20 none (some "x") AlignmentType.ALIGN_CENTER) =
      some { iconWidth := 0, iconHeight := 0, textWidth := 80, textHeight := 12,
             xoffset := 10 } := by
  refine ⟨?_, by decide⟩
  have hs : iconSize bp.width bp.height bp.icon = some (0, 0) := by rw [hicon]; rfl
  have htw : (textSize env bp.font bp.width 0 bp.text).1 = env.GetStringWidth bp.font text := by
    rw [htext]
    simp only [textSize]
    split_ifs <;> omega
  refine ⟨_, by simp only [layout, hs]; rfl, htw, ?_⟩
  intro hc
  simp only [contentOffset, hc, if_true, htw]
  have h2 : (0 : Int) ≤ Int.tdiv (bp.width - 0 - env.GetStringWidth bp.font text + 1) 2 :=
    Int.tdiv_nonneg (by omega) (by norm_num)
  rw [if_neg (by omega)]
  simp

/-- Witness of `text_unclamped`: the centred 100 x 20 sample button with
natural text width 80. -/
theorem text_unclamped_witness :
    ∃ l : Layout,
      layout (sampleEnv 80)
        (sampleButton 100 20 none (some "x") AlignmentType.ALIGN_CENTER) = some l ∧
      l.textWidth = 80 ∧
      (AlignmentType.ALIGN_CENTER = AlignmentType.ALIGN_CENTER →
        l.xoffset = Int.tdiv (100 - 80 + 1) 2) :=
  (text_unclamped (sampleEnv 80)
    (sampleButton 100 20 none (some "x") AlignmentType.ALIGN_CENTER) "x" rfl rfl
    (by decide) (by decide)).1

/-- C15: on the 1 x 1 sample button with a loaded icon of intrinsic size
1 x 65537 the run creates the graphics context 7, draws the background and the
border with it, and ends in the division by zero of the icon sizing: the context
is never released. -/
theorem DrawButton_tall_icon_context_not_released :
    DrawButton (sampleEnv 0)
        (sampleButton 1 1 (some (sampleIcon 1 65537)) none AlignmentType.ALIGN_LEFT) =
      { calls :=
          [ XCall.JXCreateGC 1 7,
            XCall.JXSetForeground 7 1,
            XCall.JXFillRectangle 1 7 5 6 1 1,
            XCall.JXSetForeground 7 2,
            XCall.JXDrawLine 1 7 5 6 5 6,
            XCall.JXDrawLine 1 7 5 6 5 6,
            XCall.JXSetForeground 7 3,
            XCall.JXDrawLine 1 7 5 6 5 6,
            XCall.JXDrawLine 1 7 5 6 5 6 ]
        status := Status.divisionByZero } ∧
    (DrawButton (sampleEnv 0)
        (sampleButton 1 1 (some (sampleIcon 1 65537)) none AlignmentType.ALIGN_LEFT)).calls.filter
      XCall.isFreeGC = [] := by
  refine ⟨by decide, by decide⟩

/-- C16: on the 1 x 1 sample button with a loaded icon of intrinsic size
1 x 65537 and a text, centred, the icon is present but the run ends in the
division by zero of the icon sizing before any icon or text is drawn. -/
theorem DrawButton_tall_icon_no_icon_draw :
    (sampleButton 1 1 (some (sampleIcon 1 65537)) (some "x") AlignmentType.ALIGN_CENTER).icon =
      some (sampleIcon 1 65537) ∧
    (DrawButton (sampleEnv 10)
        (sampleButton 1 1 (some (sampleIcon 1 65537)) (some "x")
          AlignmentType.ALIGN_CENTER)).status = Status.divisionByZero ∧
    (DrawButton (sampleEnv 10)
        (sampleButton 1 1 (some (sampleIcon 1 65537)) (some "x")
          AlignmentType.ALIGN_CENTER)).calls.filter XCall.isPutIcon = [] ∧
    (DrawButton (sampleEnv 10)
        (sampleButton 1 1 (some (sampleIcon 1 65537)) (some "x")
          AlignmentType.ALIGN_CENTER)).calls.filter XCall.isRenderString = [] := by
  refine ⟨rfl, by decide, by decide, by decide⟩

/-- In a run that returns with a computed icon width of at least 0 (no icon, or
a button of size at least 4 x 4), drawn text stays horizontally inside the
button: its start offset is at least 0 and start offset plus text width is at
most the width. -/
theorem text_span_inside_of_nonneg_icon (env : Env) (bp : ButtonNode) (l : Layout)
    (h : layout env bp = some l) (hi : 0 ≤ l.iconWidth) (ht : 0 < l.textWidth) :
    0 ≤ (drawIcon env bp (buttonStyle env bp.type).fg l).2 ∧
    (drawIcon env bp (buttonStyle env bp.type).fg l).2 + l.textWidth ≤ bp.width := by
  obtain ⟨hs, htw, -, hx⟩ := layout_eq_some h
  obtain ⟨-, hb1, hb2⟩ := textSize_bounds env bp.font bp.width l.iconWidth bp.text
  rw [← htw] at hb1 hb2
  have hnone : bp.icon = none → l.iconWidth = 0 := by
    intro hn
    rw [hn] at hs
    simp only [iconSize, Option.some.injEq, Prod.mk.injEq] at hs
    omega
  have hcases : 0 < l.iconWidth ∨ 0 = l.iconWidth := by omega
  cases hic : bp.icon with
  | none =>
    have hb := hb2 (hnone hic)
    simp only [drawIcon, hic]
    rw [hx]
    simp only [contentOffset, tdiv_two]
    split_ifs <;> omega
  | some icon =>
    simp only [drawIcon, hic]
    rw [hx]
    simp only [contentOffset, tdiv_two]
    rcases hcases with hpos | hzero
    · have hb := hb1 hpos
      split_ifs <;> omega
    · have hb := hb2 hzero.symm
      split_ifs <;> omega

/-- C17: on the 3 x 3 sample button at (5, 6) with the empty icon and a text of
natural width 1000, left aligned, the computed icon width is -1, neither
truncation applies, and the text is drawn at offset 3 with width 1000, beyond
the width 3 of the button. -/
theorem text_overflows_small_button :
    layout (sampleEnv 1000)
        (sampleButton 3 3 (some IconRef.emptyIcon) (some "x") AlignmentType.ALIGN_LEFT) =
      some { iconWidth := -1, iconHeight := -1, textWidth := 1000, textHeight := 12,
             xoffset := 2 } ∧
    (DrawButton (sampleEnv 1000)
        (sampleButton 3 3 (some IconRef.emptyIcon) (some "x")
          AlignmentType.ALIGN_LEFT)).calls.filter XCall.isRenderString =
      [XCall.RenderString 2 1 FontType.FONT_TRAY ColorType.COLOR_MENU_FG (5 + 3) 2 1000 "x"] ∧
    ¬ ((3 : Int) + 1000 ≤ 3) := by
  refine ⟨by decide, by decide, by decide⟩

/-- C19: whenever the layout of `DrawButton` is computed for a button whose text
has the natural width `n`, the text width is at most `max 0 n`, whatever the
geometry and the icon. -/
theorem textWidth_le_natural (env : Env) (bp : ButtonNode) (l : Layout) (text : String)
    (h : layout env bp = some l) (htext : bp.text = some text) :
    l.textWidth ≤ max 0 (env.GetStringWidth bp.font text) := by
  obtain ⟨-, htw, -, -⟩ := layout_eq_some h
  rw [htw, htext]
  simp only [textSize]
  split_ifs <;> omega

/-- Witness of `textWidth_le_natural`: the 50 x 20 sample button with a
200 x 100 icon and natural text width 80 gets text width 11. -/
theorem textWidth_le_natural_witness :
    layout (sampleEnv 80)
        (sampleButton 50 20 (some (sampleIcon 200 100)) (some "x") AlignmentType.ALIGN_LEFT) =
      some { iconWidth := 32, iconHeight := 16, textWidth := 11, textHeight := 12, xoffset := 2 } ∧
    (11 : Int) ≤ max 0 80 :=
  ⟨by decide,
    textWidth_le_natural (sampleEnv 80)
      (sampleButton 50 20 (some (sampleIcon 200 100)) (some "x") AlignmentType.ALIGN_LEFT)
      { iconWidth := 32, iconHeight := 16, textWidth := 11, textHeight := 12, xoffset := 2 }
      "x" (by decide) rfl⟩

/-- C20: with `int` as a 32-bit signed type, for a loaded icon with
`1 ≤ iw ≤ 32767` and `1 ≤ ih` and a button with `4 ≤ width ≤ 32771` and a
height of at least 4 (an `int`, so at most `2 ^ 31 - 1`) such that
`(height - 4) * iw < 32768 * ih`, the intermediate values of the icon sizing
(`iw << 16`, the ratio, `iconHeight * ratio`, and `iconWidth << 16` of the clamp
branch) lie in `[0, 2 ^ 31)`, and the sizing with 32-bit wrap-around gives the
result of the sizing with unbounded integers. -/
theorem iconSize32_eq_iconSize (width height : Int) (icon : IconNode)
    (hiw : 1 ≤ icon.images.width) (hiw2 : icon.images.width ≤ 32767)
    (hih : 1 ≤ icon.images.height)
    (hw : 4 ≤ width) (hw2 : width ≤ 32771)
    (hh : 4 ≤ height) (hint : height ≤ 2147483647)
    (hprod : (height - 4) * icon.images.width < 32768 * icon.images.height) :
    (0 ≤ shl16 icon.images.width ∧ shl16 icon.images.width < 2147483648) ∧
    (∃ ratio : Int, iconRatio icon = some ratio ∧ iconRatio32 icon = some ratio ∧
      0 ≤ ratio ∧ ratio < 2147483648 ∧
      0 ≤ (height - 4) * ratio ∧ (height - 4) * ratio < 2147483648) ∧
    (0 ≤ shl16 (width - 4) ∧ shl16 (width - 4) < 2147483648) ∧
    iconSize32 width height (some (IconRef.loaded icon)) =
      iconSize width height (some (IconRef.loaded icon)) := by
  obtain ⟨hr, hr0⟩ := iconRatio_of_pos icon hiw hih
  have hrle : icon.images.width * 65536 / icon.images.height ≤ icon.images.width * 65536 :=
    Int.ediv_le_self _ (by omega)
  have hHr := mul_ratio_lt (H := height - 4) (by omega) hih hprod
  have hHr0 : 0 ≤ (height - 4) * (icon.images.width * 65536 / icon.images.height) :=
    Int.mul_nonneg (by omega) hr0
  have hr32 : iconRatio32 icon =
      some (icon.images.width * 65536 / icon.images.height) := by
    unfold iconRatio32 cdiv32 shl16
    rw [wrap32_eq_self (a := icon.images.width * 65536) (by omega) (by omega),
      if_neg (by omega), Int.tdiv_eq_ediv (by omega) (by omega),
      wrap32_eq_self (a := icon.images.width * 65536 / icon.images.height)
        (by omega) (by omega)]
  generalize icon.images.width * 65536 / icon.images.height = r at hr hr0 hrle hHr hHr0 hr32
  have hdiv : cdiv32 (wrap32 (shl16 (width - 4))) r = cdiv (shl16 (width - 4)) r := by
    unfold cdiv32 cdiv shl16
    rw [wrap32_eq_self (a := (width - 4) * 65536) (by omega) (by omega)]
    by_cases h0 : r = 0
    · rw [if_pos h0, if_pos h0]
    · rw [if_neg h0, if_neg h0, Int.tdiv_eq_ediv (by omega) hr0]
      have hq0 : 0 ≤ (width - 4) * 65536 / r := Int.ediv_nonneg (by omega) hr0
      have hq1 : (width - 4) * 65536 / r ≤ (width - 4) * 65536 :=
        Int.ediv_le_self _ (by omega)
      rw [wrap32_eq_self (a := (width - 4) * 65536 / r) (by omega) (by omega)]
  refine ⟨by unfold shl16; omega, ⟨r, hr, hr32, hr0, by omega, hHr0, hHr⟩,
    by unfold shl16; omega, ?_⟩
  simp only [iconSize32, iconSize, hr, hr32]
  rw [wrap32_eq_self (a := height - 4) (by omega) (by omega),
    wrap32_eq_self (a := (height - 4) * r) (by omega) (by omega),
    wrap32_eq_self (a := width - 4) (by omega) (by omega), hdiv]

/-- Witness of `iconSize32_eq_iconSize`: a 20 x 50 button with a 200 x 100 icon
takes the clamp branch, and both sizings give 16 x 8. -/
theorem iconSize32_eq_iconSize_witness :
    iconSize32 20 50 (some (IconRef.loaded { images := { width := 200, height := 100 } })) =
      iconSize 20 50 (some (IconRef.loaded { images := { width := 200, height := 100 } })) ∧
    iconSize 20 50 (some (IconRef.loaded { images := { width := 200, height := 100 } })) =
      some (16, 8) :=
  ⟨(iconSize32_eq_iconSize 20 50 { images := { width := 200, height := 100 } }
      (by decide) (by decide) (by decide) (by decide) (by decide) (by decide) (by decide)
      (by decide)).2.2.2, by decide⟩

end Jwm
